import Mathlib

/-
Verification development for the grips_aruco marker-pose node
(src/aruco_ros/src/grips_aruco.cpp).

The node consumes marker detections (external aruco detector), applies an
orientation-normalization correction to each camera-relative marker pose,
optionally resolves a reference-to-camera transform from the external tf
tree, composes reference-from-camera, stereo baseline and corrected
camera-from-marker transforms, and fans the result out into five records
(tf broadcast, pose, transform, translation, pixel, plus a visualization
cube).

Geometry is embedded over the real numbers.  Rigid transforms follow the
tf library (the external collaborator the node delegates to): a rotation
is carried as a quaternion, rotation composition is the tf quaternion
Hamilton product, and applying a transform to a vector goes through the
tf quaternion-to-matrix conversion.  Strings, lists and options model the
frame names, detection lists and the fallible tf lookup.
-/

noncomputable section

/-- Quaternion as stored by tf (x, y, z, w). -/
structure Quat where
  x : ℝ
  y : ℝ
  z : ℝ
  w : ℝ

/-- Three-component vector (tf Vector3). -/
structure Vec3 where
  x : ℝ
  y : ℝ
  z : ℝ

/-- Row-major 3x3 matrix (tf Matrix3x3). -/
structure Mat3 where
  m00 : ℝ
  m01 : ℝ
  m02 : ℝ
  m10 : ℝ
  m11 : ℝ
  m12 : ℝ
  m20 : ℝ
  m21 : ℝ
  m22 : ℝ

/-- Rigid transform: rotation plus origin, as in tf Transform. -/
structure Transform where
  rotation : Quat
  origin : Vec3

/-- Identity quaternion (0, 0, 0, 1). -/
def idQuat : Quat := ⟨0, 0, 0, 1⟩

/-- Zero vector. -/
def zeroVec : Vec3 := ⟨0, 0, 0⟩

/-- Componentwise vector addition. -/
def vadd (a b : Vec3) : Vec3 := ⟨a.x + b.x, a.y + b.y, a.z + b.z⟩

/-- tf Quaternion multiplication (Hamilton product, tf operand order). -/
def quatMul (a b : Quat) : Quat :=
  ⟨a.w * b.x + a.x * b.w + a.y * b.z - a.z * b.y,
   a.w * b.y + a.y * b.w + a.z * b.x - a.x * b.z,
   a.w * b.z + a.z * b.w + a.x * b.y - a.y * b.x,
   a.w * b.w - a.x * b.x - a.y * b.y - a.z * b.z⟩

/-- tf Matrix3x3 setRotation: the rotation matrix of a quaternion,
with the same normalization factor s = 2 / length2 as the tf source. -/
def quatToMat (q : Quat) : Mat3 :=
  let d := q.x * q.x + q.y * q.y + q.z * q.z + q.w * q.w
  let s := 2 / d
  let xs := q.x * s
  let ys := q.y * s
  let zs := q.z * s
  let wx := q.w * xs
  let wy := q.w * ys
  let wz := q.w * zs
  let xx := q.x * xs
  let xy := q.x * ys
  let xz := q.x * zs
  let yy := q.y * ys
  let yz := q.y * zs
  let zz := q.z * zs
  ⟨1 - (yy + zz), xy - wz, xz + wy,
   xy + wz, 1 - (xx + zz), yz - wx,
   xz - wy, yz + wx, 1 - (xx + yy)⟩

/-- Matrix-vector application (tf Transform application: row dot products). -/
def matVec (m : Mat3) (v : Vec3) : Vec3 :=
  ⟨m.m00 * v.x + m.m01 * v.y + m.m02 * v.z,
   m.m10 * v.x + m.m11 * v.y + m.m12 * v.z,
   m.m20 * v.x + m.m21 * v.y + m.m22 * v.z⟩

/-- Rotate a vector by a quaternion, through the tf basis matrix. -/
def rotateVec (q : Quat) (v : Vec3) : Vec3 := matVec (quatToMat q) v

/-- tf Transform composition: basis product and transformed origin. -/
def compose (a b : Transform) : Transform :=
  ⟨quatMul a.rotation b.rotation, vadd (rotateVec a.rotation b.origin) a.origin⟩

/-- tf Transform setIdentity. -/
def identityTransform : Transform := ⟨idQuat, zeroVec⟩

/-- Two-argument arctangent, the C library atan2 the tf scalar functions
wrap (principal value in (-pi, pi]). -/
def atan2 (y x : ℝ) : ℝ :=
  if 0 < x then Real.arctan (y / x)
  else if x < 0 then
    (if 0 ≤ y then Real.arctan (y / x) + Real.pi else Real.arctan (y / x) - Real.pi)
  else if 0 < y then Real.pi / 2
  else if y < 0 then -(Real.pi / 2)
  else 0

/-- tf Matrix3x3 getEulerYPR, first solution, returning (yaw, pitch, roll).
Modelled from the tf library (external collaborator of the node). -/
def getEulerYPRsol1 (m : Mat3) : ℝ × ℝ × ℝ :=
  if 1 ≤ |m.m20| then
    let delta := atan2 m.m21 m.m22
    if m.m20 < 0 then (0, Real.pi / 2, delta)
    else (0, -(Real.pi / 2), delta)
  else
    let pitch := -(Real.arcsin m.m20)
    let roll := atan2 (m.m21 / Real.cos pitch) (m.m22 / Real.cos pitch)
    let yaw := atan2 (m.m10 / Real.cos pitch) (m.m00 / Real.cos pitch)
    (yaw, pitch, roll)

/-- The three local variables (pitch, yaw, roll) of image_callback, in the
order they are bound at the call tf Matrix3x3(quat).getRPY(pitch, yaw, roll):
tf getRPY(a, b, c) is getEulerYPR(c, b, a), so the variable named pitch
receives the tf roll, the variable named yaw the tf pitch, and the variable
named roll the tf yaw. -/
def rpyVars (q : Quat) : ℝ × ℝ × ℝ :=
  let e := getEulerYPRsol1 (quatToMat q)
  (e.2.2, e.2.1, e.1)

/-- tf Quaternion setRPY(roll, pitch, yaw). Modelled from the tf library. -/
def setRPY (roll pitch yaw : ℝ) : Quat :=
  let halfYaw := yaw * 0.5
  let halfPitch := pitch * 0.5
  let halfRoll := roll * 0.5
  let cosYaw := Real.cos halfYaw
  let sinYaw := Real.sin halfYaw
  let cosPitch := Real.cos halfPitch
  let sinPitch := Real.sin halfPitch
  let cosRoll := Real.cos halfRoll
  let sinRoll := Real.sin halfRoll
  ⟨sinRoll * cosPitch * cosYaw - cosRoll * sinPitch * sinYaw,
   cosRoll * sinPitch * cosYaw + sinRoll * cosPitch * sinYaw,
   cosRoll * cosPitch * sinYaw - sinRoll * sinPitch * cosYaw,
   cosRoll * cosPitch * cosYaw + sinRoll * sinPitch * sinYaw⟩

/-- The wobble quickfix of image_callback (lines 206 to 214): decompose the
raw rotation into the local variables (pitch, yaw, roll) and build the new
rotation with new_quat.setRPY(3.1415f, yaw, 0.0f).  The constant is the
float literal 3.1415 of the source, not pi. -/
def wobbleCorrectedQuat (q : Quat) : Quat :=
  setRPY 3.1415 (rpyVars q).2.1 0

/-- transform.setRotation(new_quat): the corrected camera-from-marker
transform keeps the detector origin and replaces the rotation. -/
def correctTransform (t : Transform) : Transform :=
  { t with rotation := wobbleCorrectedQuat t.rotation }

/-- One detection from the external aruco detector: integer id, pixel
centroid (markers[i].getCenter()), and the camera-relative pose produced
by aruco_ros arucoMarker2Tf. -/
structure MarkerDet where
  id : ℤ
  centerX : ℝ
  centerY : ℝ
  pose : Transform

/-- Mutable fields of the ArucoSimple node that the claims depend on.
The parameters are latched in the constructor; cam_info_received and
rightToLeft are written by cam_info_callback. -/
structure NodeState where
  camInfoReceived : Bool
  camParamValid : Bool
  rightToLeft : Transform
  referenceFrame : String
  cameraFrame : String
  markerFrame : String
  framePfx : String
  markerSize : ℝ
  markerId : ℤ
  useRectified : Bool

/-- Message header: frame id and stamp. -/
structure Header where
  frameId : String
  stamp : ℚ
  deriving DecidableEq

/-- tf StampedTransform handed to the transform broadcaster. -/
structure StampedTransformRec where
  transform : Transform
  stamp : ℚ
  frameId : String
  childFrameId : String

/-- geometry_msgs PoseStamped published on the pose topic. -/
structure PoseMsgT where
  header : Header
  position : Vec3
  orientation : Quat

/-- geometry_msgs TransformStamped published on the transform topic. -/
structure TransformMsgT where
  header : Header
  childFrameId : String
  translation : Vec3
  rotation : Quat

/-- geometry_msgs Vector3Stamped published on the position topic. -/
structure Vector3MsgT where
  header : Header
  vector : Vec3

/-- geometry_msgs PointStamped published on the pixel topic. -/
structure PointMsgT where
  header : Header
  px : ℝ
  py : ℝ
  pz : ℝ

/-- visualization_msgs Marker published on the marker topic
(visId 1, visType CUBE = 1, visAction ADD = 0, lifetime 3 seconds). -/
structure VisMarkerT where
  header : Header
  visId : ℤ
  visType : ℤ
  visAction : ℤ
  position : Vec3
  orientation : Quat
  scaleX : ℝ
  scaleY : ℝ
  scaleZ : ℝ
  colorR : ℝ
  colorG : ℝ
  colorB : ℝ
  colorA : ℝ
  lifetime : ℚ

/-- Everything image_callback emits for one detected marker: the tf
broadcast plus the five published records. -/
structure MarkerRecords where
  tfOut : StampedTransformRec
  poseMsg : PoseMsgT
  transformMsg : TransformMsgT
  positionMsg : Vector3MsgT
  pixelMsg : PointMsgT
  visMarker : VisMarkerT

/-- Per-marker body of image_callback (lines 200 to 268).  The fallible
getTransform call is modelled by lookupRes: some t when the tf wait and
lookup succeed, none on timeout or lookup exception, in which case the
identity value from cameraToReference.setIdentity() is kept and no
exception escapes (getTransform catches and returns false; its return
value is discarded by the caller). -/
def processMarker (s : NodeState) (lookupRes : Option Transform) (currStamp : ℚ)
    (m : MarkerDet) : MarkerRecords :=
  let corrected := correctTransform m.pose
  let cameraToReference : Transform :=
    if s.referenceFrame ≠ s.cameraFrame then
      match lookupRes with
      | some t => t
      | none => identityTransform
    else identityTransform
  let composed := compose (compose cameraToReference s.rightToLeft) corrected
  let gripsMarkerFrame := s.framePfx ++ s.markerFrame ++ "_" ++ toString m.id
  let hd : Header := ⟨s.referenceFrame, currStamp⟩
  { tfOut := ⟨composed, currStamp, s.referenceFrame, gripsMarkerFrame⟩
    poseMsg := ⟨hd, composed.origin, composed.rotation⟩
    transformMsg := ⟨hd, gripsMarkerFrame, composed.origin, composed.rotation⟩
    positionMsg := ⟨hd, composed.origin⟩
    pixelMsg := ⟨hd, m.centerX, m.centerY, 0⟩
    visMarker := ⟨hd, 1, 1, 0, composed.origin, composed.rotation,
                  s.markerSize, s.markerSize, 0.001, 1, 0, 0, 1, 3⟩ }

/-- image_callback (lines 181 to 298).  decoded is some dets when
cv_bridge decoding succeeds and the external detector reports dets, none
on a cv_bridge exception (log and return).  Nothing at all is emitted
unless cam_info_received is already true. -/
def image_callback (s : NodeState) (stamp : ℚ) (decoded : Option (List MarkerDet))
    (lookupRes : Option Transform) : List MarkerRecords :=
  if s.camInfoReceived then
    match decoded with
    | some dets => dets.map (processMarker s lookupRes stamp)
    | none => []
  else []

/-- cam_info_callback (lines 301 to 312): latch the calibration, set
rightToLeft to identity (the stereo-offset line is commented out in the
source), raise the ready flag, and shut the subscriber down. -/
def cam_info_callback (s : NodeState) (msgValid : Bool) : NodeState :=
  { s with camParamValid := msgValid
           rightToLeft := identityTransform
           camInfoReceived := true }

/-- Constructor logic for the frame parameters (lines 132 to 145):
the tf_prefix parameter is prepended to reference_frame and camera_frame,
then ROS_ASSERT(camera_frame != "" and marker_frame != "") aborts startup,
then an empty (already prefixed) reference_frame defaults to camera_frame.
none models the failed assertion: the process does not start. -/
def initNode (markerSizeP : ℝ) (markerIdP : ℤ) (refP camP mkP : String)
    (rectP : Bool) (pfxP : String) (r2l0 : Transform) : Option NodeState :=
  let reference := pfxP ++ refP
  let camera := pfxP ++ camP
  if camera = "" ∨ mkP = "" then none
  else some
    { camInfoReceived := false
      camParamValid := false
      rightToLeft := r2l0
      referenceFrame := if reference = "" then camera else reference
      cameraFrame := camera
      markerFrame := mkP
      framePfx := pfxP
      markerSize := markerSizeP
      markerId := markerIdP
      useRectified := rectP }

/-- aruco DetectionMode enumerator values (aruco 3.x). -/
def DM_NORMAL : ℤ := 0

/-- aruco DM_FAST enumerator value. -/
def DM_FAST : ℤ := 1

/-- aruco DM_VIDEO_FAST enumerator value. -/
def DM_VIDEO_FAST : ℤ := 2

/-- Detector configuration the node pushes into the external detector. -/
structure DetectorState where
  detectionMode : ℤ
  minMarkerSize : ℝ

/-- Constructor mapping of the detection_mode string parameter
(lines 109 to 117): unrecognized strings fall through to DM_NORMAL. -/
def initialDetectionMode (detectionModeP : String) : ℤ :=
  if detectionModeP = "DM_FAST" then DM_FAST
  else if detectionModeP = "DM_VIDEO_FAST" then DM_VIDEO_FAST
  else DM_NORMAL

/-- Detector state set by the constructor. -/
def initialDetector (detectionModeP : String) (minMarkerSizeP : ℝ) : DetectorState :=
  ⟨initialDetectionMode detectionModeP, minMarkerSizeP⟩

/-- Result of a dynamic-reconfigure event: the detector state written and
the warnings logged. -/
structure ReconfResult where
  detector : DetectorState
  warnings : List String

/-- reconf_callback (lines 314 to 321): the integer detection_mode of the
config is cast straight to aruco DetectionMode and handed to the detector
together with min_image_size; a true normalizeImage flag only logs the
unimplemented warning. -/
def reconf_callback (detectionModeP : ℤ) (minImageSizeP : ℝ)
    (normalizeImageP : Bool) : ReconfResult :=
  { detector := ⟨detectionModeP, minImageSizeP⟩
    warnings :=
      if normalizeImageP then ["normalizeImageIllumination is unimplemented!"] else [] }

/-- Left identity of the quaternion product. -/
theorem quatMul_idQuat_left (q : Quat) : quatMul idQuat q = q := by
  cases q
  simp only [quatMul, idQuat]
  congr 1 <;> ring

/-- Right identity of the quaternion product. -/
theorem quatMul_idQuat_right (q : Quat) : quatMul q idQuat = q := by
  cases q
  simp only [quatMul, idQuat]
  congr 1 <;> ring

/-- The tf basis matrix of the identity quaternion. -/
theorem quatToMat_idQuat : quatToMat idQuat = ⟨1, 0, 0, 0, 1, 0, 0, 0, 1⟩ := by
  simp only [quatToMat, idQuat]
  norm_num

/-- Rotating by the identity quaternion changes nothing. -/
theorem rotateVec_idQuat (v : Vec3) : rotateVec idQuat v = v := by
  cases v
  rw [rotateVec, quatToMat_idQuat]
  simp only [matVec]
  congr 1 <;> ring

/-- Rotating the zero vector gives the zero vector. -/
theorem rotateVec_zeroVec (q : Quat) : rotateVec q zeroVec = zeroVec := by
  simp only [rotateVec, matVec, zeroVec]
  norm_num

/-- Adding the zero vector changes nothing. -/
theorem vadd_zeroVec (v : Vec3) : vadd v zeroVec = v := by
  cases v
  simp only [vadd, zeroVec]
  congr 1 <;> ring

/-- Left identity of transform composition. -/
theorem compose_identity_left (t : Transform) : compose identityTransform t = t := by
  cases t
  simp only [compose, identityTransform, quatMul_idQuat_left, rotateVec_idQuat]
  congr 1
  apply vadd_zeroVec

/-- Right identity of transform composition. -/
theorem compose_identity_right (t : Transform) : compose t identityTransform = t := by
  cases t with
  | mk r o =>
    simp only [compose, identityTransform, quatMul_idQuat_right, rotateVec_zeroVec]
    congr 1
    cases o
    simp only [vadd, zeroVec]
    congr 1 <;> ring

/-- atan2 of 0 and 1 is 0. -/
theorem atan2_zero_one : atan2 0 1 = 0 := by
  rw [atan2, if_pos one_pos]
  norm_num

/-- The getRPY local variables of the identity rotation are all zero. -/
theorem rpyVars_idQuat : rpyVars idQuat = (0, 0, 0) := by
  have h : getEulerYPRsol1 (quatToMat idQuat) = (0, 0, 0) := by
    rw [quatToMat_idQuat]
    simp only [getEulerYPRsol1]
    norm_num [Real.arcsin_zero, Real.cos_zero, atan2_zero_one]
  simp [rpyVars, h]

/-- Concrete stereo baseline for the non-commutation part of claim C1:
a rotation about the x axis with rational unit quaternion (3/5, 0, 0, 4/5). -/
def sampleBaseline : Transform := ⟨⟨3 / 5, 0, 0, 4 / 5⟩, ⟨0, 0, 0⟩⟩

/-- Concrete camera-relative transform for claim C1: a rotation about the
y axis with rational unit quaternion (0, 3/5, 0, 4/5). -/
def sampleCamPose : Transform := ⟨⟨0, 3 / 5, 0, 4 / 5⟩, ⟨0, 0, 0⟩⟩

/-- Concrete post-calibration node state used by witnesses. -/
def sampleState : NodeState :=
  ⟨true, true, identityTransform, "r", "c", "m", "", 0.05, 300, true⟩

/-- Concrete pre-calibration node state used by witnesses. -/
def sampleInitState : NodeState :=
  ⟨false, false, identityTransform, "r", "c", "m", "", 0.05, 300, true⟩

/-- Concrete detection used by witnesses. -/
def sampleMarker : MarkerDet := ⟨5, 0, 0, identityTransform⟩

/-- Claim C1: for every detected marker the published marker-to-reference
transform is the composition reference-from-camera, then stereo baseline,
then corrected camera-from-marker, in exactly that order; and swapping the
stereo baseline with the camera-relative transform yields a different
result for non-commuting rotations. -/
theorem claim1_composition_order (s : NodeState) (R : Transform) (stamp : ℚ)
    (m : MarkerDet) (h : s.referenceFrame ≠ s.cameraFrame) :
    (processMarker s (some R) stamp m).tfOut.transform
        = compose (compose R s.rightToLeft) (correctTransform m.pose)
    ∧ compose sampleBaseline sampleCamPose ≠ compose sampleCamPose sampleBaseline := by
  constructor
  · simp only [processMarker]
    rw [if_pos h]
  · intro hEq
    have hz := congrArg (fun t => t.rotation.z) hEq
    norm_num [compose, quatMul, sampleBaseline, sampleCamPose] at hz

/-- Witness for claim C1 at a concrete state, lookup result and marker. -/
theorem claim1_composition_order_witness :
    sampleState.referenceFrame ≠ sampleState.cameraFrame
    ∧ ((processMarker sampleState (some identityTransform) 0 sampleMarker).tfOut.transform
          = compose (compose identityTransform sampleState.rightToLeft)
              (correctTransform sampleMarker.pose)
        ∧ compose sampleBaseline sampleCamPose ≠ compose sampleCamPose sampleBaseline) :=
  ⟨by decide,
   claim1_composition_order sampleState identityTransform 0 sampleMarker (by decide)⟩

/-- Claim C2, amended: the roll constant the correction is built from is
the float literal 3.1415 of the source, not pi.  For every raw rotation
whose getRPY decomposition binds the local variables (pitch, yaw, roll) to
(p, y, r), the corrected rotation is setRPY 3.1415 y 0, and it coincides
for any two raw rotations that agree on the y slot, hence it is invariant
to the input roll r (and to p). -/
theorem claim2_wobble_correction (q q2 : Quat) (p y r p2 r2 : ℝ)
    (h : rpyVars q = (p, y, r)) (h2 : rpyVars q2 = (p2, y, r2)) :
    wobbleCorrectedQuat q = setRPY 3.1415 y 0
    ∧ wobbleCorrectedQuat q = wobbleCorrectedQuat q2 := by
  constructor
  · rw [wobbleCorrectedQuat, h]
  · rw [wobbleCorrectedQuat, wobbleCorrectedQuat, h, h2]

/-- Witness for the amended claim C2 at the identity rotation. -/
theorem claim2_wobble_correction_witness :
    rpyVars idQuat = (0, 0, 0)
    ∧ (wobbleCorrectedQuat idQuat = setRPY 3.1415 0 0
        ∧ wobbleCorrectedQuat idQuat = wobbleCorrectedQuat idQuat) :=
  ⟨rpyVars_idQuat,
   claim2_wobble_correction idQuat idQuat 0 0 0 0 0 rpyVars_idQuat rpyVars_idQuat⟩

/-- Counterexample to claim C2 as stated: at the identity rotation, whose
decomposition yields (0, 0, 0), the corrected rotation differs from the
rotation built from (roll = pi, pitch = 0, yaw = 0), because the source
constant is 3.1415, not pi. -/
theorem claim2_roll_constant_counterexample :
    rpyVars idQuat = (0, 0, 0)
    ∧ wobbleCorrectedQuat idQuat ≠ setRPY Real.pi 0 0 := by
  refine ⟨rpyVars_idQuat, ?_⟩
  have h1 : wobbleCorrectedQuat idQuat = setRPY 3.1415 0 0 := by
    rw [wobbleCorrectedQuat, rpyVars_idQuat]
  rw [h1]
  intro hEq
  have hw := congrArg Quat.w hEq
  simp only [setRPY, zero_mul, Real.cos_zero, Real.sin_zero, mul_one, mul_zero,
    add_zero, one_mul] at hw
  have hz : Real.cos (Real.pi * 0.5) = 0 := by
    have hp : (Real.pi * 0.5) = Real.pi / 2 := by ring
    rw [hp, Real.cos_pi_div_two]
  have hpos : 0 < Real.cos ((3.1415 : ℝ) * 0.5) := by
    have hgt := Real.pi_gt_d6
    refine Real.cos_pos_of_mem_Ioo ⟨?_, ?_⟩
    · nlinarith [Real.pi_pos]
    · nlinarith
  rw [hz] at hw
  linarith

/-- Claim C3: when the reference frame differs from the camera frame and
the tf lookup fails, the identity transform substitutes for the
reference-from-camera transform, so the published transform is the stereo
baseline composed with the corrected camera-from-marker transform; the
failure is absorbed (the embedding of getTransform is total) and every
detection still yields its full record bundle. -/
theorem claim3_lookup_failure_degrades (s : NodeState) (stamp : ℚ) (m : MarkerDet)
    (dets : List MarkerDet) (h : s.referenceFrame ≠ s.cameraFrame) :
    (processMarker s none stamp m).tfOut.transform
        = compose s.rightToLeft (correctTransform m.pose)
    ∧ image_callback { s with camInfoReceived := true } stamp (some dets) none
        = dets.map (processMarker { s with camInfoReceived := true } none stamp)
    ∧ (image_callback { s with camInfoReceived := true } stamp (some dets) none).length
        = dets.length := by
  refine ⟨?_, ?_, ?_⟩
  · simp only [processMarker]
    rw [if_pos h, compose_identity_left]
  · simp [image_callback]
  · simp [image_callback]

/-- Witness for claim C3 at a concrete state and marker. -/
theorem claim3_lookup_failure_degrades_witness :
    sampleState.referenceFrame ≠ sampleState.cameraFrame
    ∧ ((processMarker sampleState none 0 sampleMarker).tfOut.transform
          = compose sampleState.rightToLeft (correctTransform sampleMarker.pose)
        ∧ image_callback { sampleState with camInfoReceived := true } 0
              (some [sampleMarker]) none
          = [sampleMarker].map
              (processMarker { sampleState with camInfoReceived := true } none 0)
        ∧ (image_callback { sampleState with camInfoReceived := true } 0
              (some [sampleMarker]) none).length = [sampleMarker].length) :=
  ⟨by decide, claim3_lookup_failure_degrades sampleState 0 sampleMarker [sampleMarker]
      (by decide)⟩

/-- Claim C4: a frame that arrives while cam_info_received is still false
produces no record at all, whatever the detector would have reported, and
the constructor starts the node with the flag down. -/
theorem claim4_calibration_gate (s : NodeState) (stamp : ℚ)
    (decoded : Option (List MarkerDet)) (lk : Option Transform)
    (ms : ℝ) (mi : ℤ) (refP camP mkP : String) (rectP : Bool) (pfxP : String)
    (r2l : Transform) (s0 : NodeState)
    (h : s.camInfoReceived = false) :
    image_callback s stamp decoded lk = []
    ∧ (initNode ms mi refP camP mkP rectP pfxP r2l = some s0 →
        s0.camInfoReceived = false) := by
  constructor
  · simp [image_callback, h]
  · intro hs
    simp only [initNode] at hs
    split_ifs at hs
    all_goals (cases Option.some.inj hs; rfl)

/-- Witness for claim C4 at a concrete pre-calibration state. -/
theorem claim4_calibration_gate_witness :
    sampleInitState.camInfoReceived = false
    ∧ (image_callback sampleInitState 0 (some [sampleMarker]) none = []
        ∧ (initNode 0.05 300 "r" "c" "m" true "" identityTransform
              = some sampleInitState →
            sampleInitState.camInfoReceived = false)) :=
  ⟨rfl, claim4_calibration_gate sampleInitState 0 (some [sampleMarker]) none
      0.05 300 "r" "c" "m" true "" identityTransform sampleInitState rfl⟩

/-- Claim C5: the translation record copies the translation of the
transform record, the pose record position equals it as well, and the
three records share one header. -/
theorem claim5_fanout_consistency (s : NodeState) (lk : Option Transform) (stamp : ℚ)
    (m : MarkerDet) :
    (processMarker s lk stamp m).positionMsg.vector
        = (processMarker s lk stamp m).transformMsg.translation
    ∧ (processMarker s lk stamp m).poseMsg.position
        = (processMarker s lk stamp m).transformMsg.translation
    ∧ (processMarker s lk stamp m).positionMsg.header
        = (processMarker s lk stamp m).transformMsg.header
    ∧ (processMarker s lk stamp m).poseMsg.header
        = (processMarker s lk stamp m).transformMsg.header :=
  ⟨rfl, rfl, rfl, rfl⟩

/-- Claim C6, amended: the constructor prepends tf_prefix to the
reference_frame parameter before testing it for emptiness, so with an
unset reference_frame the default to the camera frame only happens when
the tf_prefix is empty as well; with a non-empty tf_prefix the effective
reference frame is the tf_prefix itself, not the camera frame. -/
theorem claim6_reference_default (ms : ℝ) (mi : ℤ) (camP mkP : String)
    (rectP : Bool) (r2l : Transform) (pfxP : String) (s1 s2 : NodeState) :
    (initNode ms mi "" camP mkP rectP "" r2l = some s1 →
        s1.referenceFrame = s1.cameraFrame)
    ∧ (pfxP ≠ "" → initNode ms mi "" camP mkP rectP pfxP r2l = some s2 →
        s2.referenceFrame = pfxP) := by
  constructor
  · intro hs
    simp only [initNode, String.empty_append, String.append_empty,
      eq_self_iff_true, if_true] at hs
    split_ifs at hs
    all_goals (cases Option.some.inj hs; rfl)
  · intro hp hs
    simp only [initNode, String.append_empty] at hs
    split_ifs at hs
    all_goals (cases Option.some.inj hs; rfl)

/-- Witness for the amended claim C6: with tf_prefix p, camera_frame c and
unset reference_frame, the node starts with reference frame p. -/
theorem claim6_reference_default_witness :
    (("p" : String) ≠ "")
    ∧ ((⟨false, false, identityTransform, "p", "pc", "m", "p", 0.05, 300, true⟩
          : NodeState).referenceFrame = "p") :=
  ⟨by decide,
   (claim6_reference_default 0.05 300 "c" "m" true identityTransform "p"
      ⟨false, false, identityTransform, "c", "c", "m", "", 0.05, 300, true⟩
      ⟨false, false, identityTransform, "p", "pc", "m", "p", 0.05, 300, true⟩).2
     (by decide) (by rfl)⟩

/-- Counterexample to claim C6 as stated: with reference_frame unset,
camera_frame c and the non-empty tf_prefix p, the effective reference
frame is p while the effective camera frame is pc, so the reference frame
does not default to the camera frame. -/
theorem claim6_reference_default_counterexample :
    (initNode 0.05 300 "" "c" "m" true "p" identityTransform).map
        NodeState.referenceFrame = some "p"
    ∧ (initNode 0.05 300 "" "c" "m" true "p" identityTransform).map
        NodeState.cameraFrame = some "pc"
    ∧ ("p" : String) ≠ "pc" :=
  ⟨rfl, rfl, by decide⟩

/-- Claim C7: startup aborts exactly when the prefixed camera frame or the
marker frame is the empty string; in particular an empty camera_frame
parameter together with a non-empty tf_prefix passes the assertion. -/
theorem claim7_startup_assert (ms : ℝ) (mi : ℤ) (refP camP mkP : String)
    (rectP : Bool) (pfxP : String) (r2l : Transform) :
    (initNode ms mi refP camP mkP rectP pfxP r2l = none
        ↔ (pfxP ++ camP = "" ∨ mkP = ""))
    ∧ (pfxP ≠ "" → mkP ≠ "" →
        initNode ms mi refP "" mkP rectP pfxP r2l ≠ none) := by
  constructor
  · simp only [initNode]
    split_ifs with hc
    · exact iff_of_true rfl hc
    · exact iff_of_false (by simp) hc
  · intro hp hm hn
    simp only [initNode, String.append_empty] at hn
    split_ifs at hn with hc
    rcases hc with hc | hc
    · exact hp hc
    · exact hm hc

/-- Witness for claim C7: empty camera_frame parameter, a non-empty
value of tf_prefix, non-empty marker_frame: the process starts. -/
theorem claim7_startup_assert_witness :
    (("p" : String) ≠ "" ∧ ("m" : String) ≠ "")
    ∧ initNode 0.05 300 "r" "" "m" true "p" identityTransform ≠ none :=
  ⟨⟨by decide, by decide⟩,
   (claim7_startup_assert 0.05 300 "r" "" "m" true "p" identityTransform).2
      (by decide) (by decide)⟩

/-- Claim C8, amended: on a dynamic-reconfigure event the detection-mode
integer is cast to the detector enum and forwarded unvalidated, with no
fallback to the recognized set and no report; the fallback to DM_NORMAL
exists only in the constructor mapping of the detection_mode string
parameter; a normalizeImage request of true surfaces the unimplemented
warning and performs no illumination normalization. -/
theorem claim8_reconf_forwarding (v : ℤ) (sz : ℝ) (b : Bool) (str : String) :
    (reconf_callback v sz b).detector.detectionMode = v
    ∧ (reconf_callback v sz b).warnings
        = (if b then ["normalizeImageIllumination is unimplemented!"] else [])
    ∧ (str ≠ "DM_FAST" → str ≠ "DM_VIDEO_FAST" →
        initialDetectionMode str = DM_NORMAL) := by
  refine ⟨rfl, rfl, ?_⟩
  intro h1 h2
  simp [initialDetectionMode, h1, h2]

/-- Witness for the amended claim C8 at a concrete reconfigure event and
an unrecognized mode string. -/
theorem claim8_reconf_forwarding_witness :
    (("DM_BOGUS" : String) ≠ "DM_FAST" ∧ ("DM_BOGUS" : String) ≠ "DM_VIDEO_FAST")
    ∧ initialDetectionMode "DM_BOGUS" = DM_NORMAL :=
  ⟨⟨by decide, by decide⟩,
   (claim8_reconf_forwarding 99 0.02 true "DM_BOGUS").2.2 (by decide) (by decide)⟩

/-- Counterexample to claim C8 as stated: the reconfigure event carrying
the unrecognized detection-mode value 99 stores mode 99 in the detector,
which is none of the recognized enumerators, and reports no warning, so
there is neither a fallback to a safe default nor a report. -/
theorem claim8_no_fallback_counterexample :
    (reconf_callback 99 0.02 false).detector.detectionMode = 99
    ∧ ¬((reconf_callback 99 0.02 false).detector.detectionMode = DM_NORMAL
        ∨ (reconf_callback 99 0.02 false).detector.detectionMode = DM_FAST
        ∨ (reconf_callback 99 0.02 false).detector.detectionMode = DM_VIDEO_FAST)
    ∧ (reconf_callback 99 0.02 false).warnings = [] :=
  ⟨rfl, by decide, rfl⟩

/-- Claim C9: the child frame name of the published transform is
tf_prefix ++ marker_frame ++ underscore ++ the marker id, the pixel record
carries the centroid of that same marker, and a frame with several markers
maps each detection independently through the same per-marker function. -/
theorem claim9_child_frame_and_independence (s : NodeState) (lk : Option Transform)
    (stamp : ℚ) (m : MarkerDet) (dets : List MarkerDet) :
    (processMarker s lk stamp m).tfOut.childFrameId
        = s.framePfx ++ s.markerFrame ++ "_" ++ toString m.id
    ∧ (processMarker s lk stamp m).transformMsg.childFrameId
        = s.framePfx ++ s.markerFrame ++ "_" ++ toString m.id
    ∧ (processMarker s lk stamp m).pixelMsg.px = m.centerX
    ∧ (processMarker s lk stamp m).pixelMsg.py = m.centerY
    ∧ image_callback { s with camInfoReceived := true } stamp (some dets) lk
        = dets.map (processMarker { s with camInfoReceived := true } lk stamp) := by
  refine ⟨rfl, rfl, rfl, rfl, ?_⟩
  simp [image_callback]

/-- Claim C10: cam_info_callback always sets the stereo baseline
rightToLeft to the identity transform (the stereo-offset line is commented
out in the source, and nothing else writes it), and consequently, for a
state whose baseline is the identity, the published transform is the
reference-from-camera transform composed directly with the corrected
camera-from-marker transform. -/
theorem claim10_stereo_baseline_identity (s s2 : NodeState) (v : Bool) (stamp : ℚ)
    (m : MarkerDet) (R : Transform)
    (h2 : s2.rightToLeft = identityTransform)
    (h : s2.referenceFrame ≠ s2.cameraFrame) :
    (cam_info_callback s v).rightToLeft = identityTransform
    ∧ (processMarker s2 (some R) stamp m).tfOut.transform
        = compose R (correctTransform m.pose) := by
  constructor
  · rfl
  · simp only [processMarker]
    rw [if_pos h, h2, compose_identity_right]

/-- Witness for claim C10 at a concrete state with identity baseline. -/
theorem claim10_stereo_baseline_identity_witness :
    (sampleState.rightToLeft = identityTransform
      ∧ sampleState.referenceFrame ≠ sampleState.cameraFrame)
    ∧ ((cam_info_callback sampleInitState true).rightToLeft = identityTransform
        ∧ (processMarker sampleState (some identityTransform) 0
              sampleMarker).tfOut.transform
            = compose identityTransform (correctTransform sampleMarker.pose)) :=
  ⟨⟨rfl, by decide⟩,
   claim10_stereo_baseline_identity sampleInitState sampleState true 0 sampleMarker
      identityTransform rfl (by decide)⟩

end




